import Mathlib

/-!
Shallow embedding of SDICL.h, a boilerplate-reduction header wrapping
OpenCL device discovery/context setup and an SDL streaming texture whose
pixel array can be shaded by an OpenCL kernel.

Machine integers of the source are modelled as `Nat`; the one place where
unsigned 32-bit wraparound is visible (the `unsigned int` device score) is
modelled with an explicit `% 2^32`.  Opaque third-party handles
(`cl::Device`, `cl::Kernel`, `cl::Buffer`) are modelled structurally; a
default-constructed (null) handle is `Option.none`.
-/

/-- Model of `cl::Device`: an opaque handle together with the two
queryable quantities `getSemiIdealDevice` reads
(`CL_DEVICE_MAX_COMPUTE_UNITS` and `CL_DEVICE_MAX_CLOCK_FREQUENCY`,
both `cl_uint`). -/
structure ClDevice where
  devId : Nat
  maxComputeUnits : Nat
  maxClockFrequency : Nat
deriving DecidableEq

/-- The score `thisClock = d.getInfo<CL_DEVICE_MAX_COMPUTE_UNITS>() *
d.getInfo<CL_DEVICE_MAX_CLOCK_FREQUENCY>()` computed in
`getSemiIdealDevice` (SDICL.h line 27); the product of two `cl_uint`
values stored in an `unsigned int`, hence reduced modulo `2^32`. -/
def score (d : ClDevice) : Nat :=
  d.maxComputeUnits * d.maxClockFrequency % 4294967296

/-- One iteration of the inner loop of `getSemiIdealDevice`
(SDICL.h lines 26-33): the accumulator is the pair
`(bestDevice, maxClock)`; a device replaces it exactly when
`thisClock > maxClock` (strict). -/
def scanDevice (acc : Option ClDevice × Nat) (d : ClDevice) : Option ClDevice × Nat :=
  if score d > acc.2 then (some d, score d) else acc

/-- Model of `getSemiIdealDevice` (SDICL.h lines 16-36).  The
environment's enumeration is the input: one device list per platform, in
enumeration order.  `bestDevice` starts default-constructed (`none`) and
`maxClock` starts at `0`; both loops scan in order.  `cl::Platform::getDevices`
replaces the contents of the `devices` vector on each platform, so the scan
ranges over the concatenation of the per-platform lists. -/
def getSemiIdealDevice (platforms : List (List ClDevice)) : Option ClDevice :=
  (platforms.foldl (fun acc devs => devs.foldl scanDevice acc) (none, 0)).1

/-- The maximum score over a device list (0 on the empty list), used to
specify the scan. -/
def maxScore : List ClDevice → Nat
  | [] => 0
  | d :: ds => max (score d) (maxScore ds)

/-- Boolean predicate: the device attains the given score value. -/
def isMaxScore (m : Nat) (d : ClDevice) : Bool :=
  score d == m

theorem score_le_maxScore {l : List ClDevice} {d : ClDevice} (hd : d ∈ l) :
    score d ≤ maxScore l := by
  induction l with
  | nil => cases hd
  | cons e es ih =>
    rcases List.mem_cons.mp hd with h | h
    · subst h; exact le_max_left _ _
    · exact le_trans (ih h) (le_max_right _ _)

theorem maxScore_eq_zero {l : List ClDevice} (h : ∀ d ∈ l, score d = 0) :
    maxScore l = 0 := by
  induction l with
  | nil => rfl
  | cons e es ih =>
    simp only [maxScore]
    rw [h e (List.mem_cons_self e es), ih (fun d hd => h d (List.mem_cons_of_mem e hd))]
    omega

/-- Characterization of the inner scan: after folding `scanDevice` over a
list from accumulator `(best, m)`, the running maximum is `max m (maxScore l)`
and the chosen device is the first one whose score attains `maxScore l`,
provided that maximum strictly exceeds `m`; otherwise the accumulator's
device survives. -/
theorem foldl_scanDevice (l : List ClDevice) (best : Option ClDevice) (m : Nat) :
    l.foldl scanDevice (best, m) =
      ((if m < maxScore l then l.find? (isMaxScore (maxScore l)) else best),
        max m (maxScore l)) := by
  induction l generalizing best m with
  | nil => simp [maxScore]
  | cons d ds ih =>
    simp only [List.foldl_cons, scanDevice, maxScore]
    by_cases h1 : score d > m
    · simp only [h1, if_pos]
      rw [ih (some d) (score d)]
      by_cases h2 : score d < maxScore ds
      · have hmax : score d ⊔ maxScore ds = maxScore ds := by omega
        rw [if_pos h2, hmax, if_pos (show m < maxScore ds by omega)]
        have hpd : ¬ isMaxScore (maxScore ds) d = true := by
          simp only [isMaxScore, beq_iff_eq]; omega
        rw [List.find?_cons_of_neg _ hpd]
        simp only [Prod.mk.injEq]
        exact ⟨trivial, by omega⟩
      · have hmax : score d ⊔ maxScore ds = score d := by omega
        rw [if_neg h2, hmax, if_pos (show m < score d by omega)]
        have hpd : isMaxScore (score d) d = true := by simp [isMaxScore]
        rw [List.find?_cons_of_pos _ hpd]
        simp only [Prod.mk.injEq]
        exact ⟨trivial, by omega⟩
    · simp only [h1, if_neg, not_false_eq_true]
      rw [ih best m]
      have hd : score d ≤ m := by omega
      by_cases h2 : m < maxScore ds
      · have hmax : score d ⊔ maxScore ds = maxScore ds := by omega
        rw [if_pos h2, hmax, if_pos h2]
        have hpd : ¬ isMaxScore (maxScore ds) d = true := by
          simp only [isMaxScore, beq_iff_eq]; omega
        rw [List.find?_cons_of_neg _ hpd]
      · rw [if_neg h2, if_neg (show ¬ m < score d ⊔ maxScore ds by omega)]
        simp only [Prod.mk.injEq]
        exact ⟨trivial, by omega⟩

/-- The nested platform/device loops of `getSemiIdealDevice` scan the
concatenation of the per-platform device lists. -/
theorem foldl_scan_flatten (platforms : List (List ClDevice)) (acc : Option ClDevice × Nat) :
    platforms.foldl (fun a devs => devs.foldl scanDevice a) acc
      = platforms.flatten.foldl scanDevice acc := by
  induction platforms generalizing acc with
  | nil => rfl
  | cons p ps ih => simp [List.flatten, List.foldl_append, ih]

/-- A device-side command enqueued on the `cl::CommandQueue`, with the
parameters visible at the call sites in SDICL.h: `enqueueWriteBuffer` and
`enqueueReadBuffer` carry their blocking flag (`CL_TRUE` at both call
sites), byte offset and byte count; `enqueueNDRangeKernel` carries its
global work size; `finish` carries nothing. -/
inductive DevOp where
  | enqueueWriteBuffer (blocking : Bool) (offset byteCount : Nat)
  | enqueueNDRangeKernel (globalSize : Nat)
  | finish
  | enqueueReadBuffer (blocking : Bool) (offset byteCount : Nat)
deriving DecidableEq

/-- Modelled from the OpenCL host API (third-party, not part of this
repository): whether a command returns to the host only after the device
work completes.  `clEnqueueWriteBuffer`/`clEnqueueReadBuffer` block if and
only if their `blocking_write`/`blocking_read` flag is `CL_TRUE`;
`clFinish` blocks until all previously queued commands have completed;
`clEnqueueNDRangeKernel` has no blocking flag and only enqueues the
kernel, returning without waiting for its execution. -/
def blocksUntilCompletion : DevOp → Bool
  | DevOp.enqueueWriteBuffer blocking _ _ => blocking
  | DevOp.enqueueNDRangeKernel _ => false
  | DevOp.finish => true
  | DevOp.enqueueReadBuffer blocking _ _ => blocking

/-- A value bound to a kernel argument slot by `cl::Kernel::setArg`:
the pixel buffer handle, an `int` (the width/height bindings and any
user-supplied scalar), or any other user-supplied value. -/
inductive KernelArg where
  | bufferArg
  | intArg (v : Nat)
  | otherArg (tag : Nat)
deriving DecidableEq

/-- Model of a `cl::Kernel`: the entry-point name it was created from and
the map from argument index to the currently bound argument. -/
structure KernelState where
  kname : String
  args : Nat → Option KernelArg

/-- Model of `cl::Kernel::setArg(i, a)`: binds slot `i`, leaving every
other slot untouched. -/
def setArg (k : KernelState) (i : Nat) (a : KernelArg) : KernelState :=
  { k with args := fun j => if j = i then some a else k.args j }

/-- Model of `new cl::Kernel(program, name)`: a fresh kernel with no
arguments bound. -/
def freshKernel (name : String) : KernelState :=
  { kname := name, args := fun _ => none }

/-- A sequence of caller-side `setArg` calls
(`SDL_ShaderTexture::shaderKernel->setArg(i, v)`), applied in order. -/
def applyArgUpdates (k : KernelState) (updates : List (Nat × KernelArg)) : KernelState :=
  updates.foldl (fun kk u => setArg kk u.1 u.2) k

/-- Model of the SDL streaming texture owned by an `SDL_ShaderTexture`:
its creation size, current blend mode, and the byte data last copied into
it by `SDL_UpdateTexture`. -/
structure SDLTexture where
  texW : Nat
  texH : Nat
  blend : Nat
  texData : List Nat

/-- Model of an `SDL_ShaderTexture` (SDICL.h lines 90-111): the `rect`
fields, the SDL texture, the CPU-side `pixels` byte vector, the device
buffer (its byte size and current contents), the optional kernel handle
(`nullptr` is `none`), and the stored shader name. -/
structure ShaderState where
  rectX : Nat
  rectY : Nat
  rectW : Nat
  rectH : Nat
  texture : SDLTexture
  pixels : List Nat
  bufferSize : Nat
  bufferData : List Nat
  shaderKernel : Option KernelState
  shaderName : String

/-- Reading `n` bytes starting at offset 0 from a byte store (bytes past
the end read as 0; in every reachable state the store is large enough). -/
def readBytes (buf : List Nat) (n : Nat) : List Nat :=
  (List.range n).map (fun i => buf.getD i 0)

/-- Writing the source bytes into a fixed-size device buffer at offset 0:
the buffer keeps its allocated size, bytes beyond the source keep their
old value. -/
def writeBytes (buf src : List Nat) : List Nat :=
  (List.range buf.length).map (fun i => if i < src.length then src.getD i 0 else buf.getD i 0)

/-- The opaque device-side kernel execution: the kernel computes new
contents for the buffer; the buffer is fixed-size device memory, so the
result is truncated/padded back to the buffer's allocated length.  The
computation itself (`exec`) is a parameter of the model. -/
def runDeviceKernel (exec : List Nat → List Nat) (buf : List Nat) : List Nat :=
  readBytes (exec buf) buf.length

/-- Model of `SDL_ShaderTexture::update` (SDICL.h lines 145-149):
`SDL_UpdateTexture` copies the pixel vector into the SDL texture. -/
def updateTex (st : ShaderState) : ShaderState :=
  { st with texture := { st.texture with texData := st.pixels } }

/-- Model of the `SDL_ShaderTexture` constructor (SDICL.h lines 113-123):
`rect = {0, 0, width, height}`; an SDL streaming texture of that size;
`pixels` is `width * height * 4` bytes, all 0; the device buffer is
created with byte size `sizeof(unsigned char) * pixels.size()`
(its initial device contents are unspecified, modelled as zeros);
`shaderKernel` is still the `nullptr` of the member declaration; finally
the constructor calls `update()`. -/
def constructTex (width height : Nat) : ShaderState :=
  updateTex
    { rectX := 0
      rectY := 0
      rectW := width
      rectH := height
      texture := { texW := width, texH := height, blend := 0, texData := [] }
      pixels := List.replicate (width * height * 4) 0
      bufferSize := width * height * 4
      bufferData := List.replicate (width * height * 4) 0
      shaderKernel := none
      shaderName := "" }

/-- Model of `SDL_ShaderTexture::blank` (SDICL.h lines 131-135):
`memset(&pixels[0], 0, pixels.size()*sizeof(pixels[0]))` zeroes every
byte of the pixel vector in place. -/
def blankTex (st : ShaderState) : ShaderState :=
  { st with pixels := List.replicate st.pixels.length 0 }

/-- The device commands `SDL_ShaderTexture::shade` (SDICL.h lines
137-143) enqueues, in source order: a write of `pixels.size()` bytes with
blocking flag `CL_TRUE`, a kernel enqueue with global size
`rect.w * rect.h` (one work item per pixel), `finish()`, and a read of
`pixels.size()` bytes with blocking flag `CL_TRUE`. -/
def shadeTrace (st : ShaderState) : List DevOp :=
  [ DevOp.enqueueWriteBuffer true 0 st.pixels.length
  , DevOp.enqueueNDRangeKernel (st.rectW * st.rectH)
  , DevOp.finish
  , DevOp.enqueueReadBuffer true 0 st.pixels.length ]

/-- The state effect of `SDL_ShaderTexture::shade`: the pixel bytes are
uploaded into the device buffer, the kernel (modelled by `exec`)
transforms the buffer, and `pixels.size()` bytes are read back into the
pixel vector. -/
def shadeTex (exec : List Nat → List Nat) (st : ShaderState) : ShaderState :=
  { st with
      bufferData := runDeviceKernel exec (writeBytes st.bufferData st.pixels)
      pixels := readBytes (runDeviceKernel exec (writeBytes st.bufferData st.pixels)) st.pixels.length }

/-- Model of `SDL_ShaderTexture::setBlendMode` (SDICL.h lines 151-153). -/
def setBlendModeTex (st : ShaderState) (b : Nat) : ShaderState :=
  { st with texture := { st.texture with blend := b } }

/-- The kernel built by `SDL_ShaderTexture::setShader` (SDICL.h lines
155-164): a fresh kernel for the named entry point with argument 0 bound
to the pixel buffer, argument 1 to `rect.w` and argument 2 to `rect.h`. -/
def setShaderKernel (st : ShaderState) (name : String) : KernelState :=
  setArg (setArg (setArg (freshKernel name) 0 KernelArg.bufferArg)
    1 (KernelArg.intArg st.rectW)) 2 (KernelArg.intArg st.rectH)

/-- Model of `SDL_ShaderTexture::setShader`: stores the name, deletes the
old kernel, installs the freshly built one. -/
def setShaderTex (st : ShaderState) (name : String) : ShaderState :=
  { st with shaderName := name, shaderKernel := some (setShaderKernel st name) }

/-- Model of the `OCL` object (SDICL.h lines 45-59): the chosen device
(a default-constructed handle is `none`), the kernel source list, and the
command queue, modelled as the log of commands enqueued on it. -/
structure OCLState where
  device : Option ClDevice
  sources : List String
  queueLog : List DevOp

/-- The `OCL` state built by the success path of the constructor
(SDICL.h lines 61-80): the device is `getSemiIdealDevice()`, the sources
are the kernel file contents, the queue starts empty. -/
def mkOCLState (platforms : List (List ClDevice)) (kernelSources : List String) : OCLState :=
  { device := getSemiIdealDevice platforms
    sources := kernelSources
    queueLog := [] }

/-- Outcome of running the `OCL` constructor: either a constructed state,
or process termination via `exit` with the given status after printing
the given text. -/
inductive CtorOutcome where
  | ok (st : OCLState)
  | exited (code : Nat) (printed : String)

/-- Model of `OCL::OCL` (SDICL.h lines 61-80): device, context, queue and
sources are set up, then the program is built; if `program->build({device})`
does not return `CL_SUCCESS` (modelled by `buildOk = false`), the process
prints `" Error building: "` followed by the build log and a newline, and
calls `exit(1)`.  Otherwise construction succeeds. -/
def mkOCL (platforms : List (List ClDevice)) (kernelSources : List String)
    (buildOk : Bool) (buildLog : String) : CtorOutcome :=
  if buildOk then CtorOutcome.ok (mkOCLState platforms kernelSources)
  else CtorOutcome.exited 1 (" Error building: " ++ buildLog ++ "\n")

/-- The combined state a program using the header manipulates: the `OCL`
object and an `SDL_ShaderTexture` tied to it. -/
structure World where
  ocl : OCLState
  tex : ShaderState

/-- The public member functions of `SDL_ShaderTexture` (`setShader` with
its name argument, `setBlendMode` with its blend argument). -/
inductive STOp where
  | blank
  | shade
  | update
  | setBlendMode (b : Nat)
  | setShader (name : String)
deriving DecidableEq

/-- One member-function call on the combined state.  Only `shade` touches
the `OCL` object, and only by enqueueing commands on its queue. -/
def step (exec : List Nat → List Nat) (w : World) : STOp → World
  | STOp.blank => { w with tex := blankTex w.tex }
  | STOp.shade =>
      { ocl := { w.ocl with queueLog := w.ocl.queueLog ++ shadeTrace w.tex }
        tex := shadeTex exec w.tex }
  | STOp.update => { w with tex := updateTex w.tex }
  | STOp.setBlendMode b => { w with tex := setBlendModeTex w.tex b }
  | STOp.setShader n => { w with tex := setShaderTex w.tex n }

/-- Every member function of the library other than the `OCL` constructor
contains no error check, no recovery branch and no `exit` call
(SDICL.h lines 131-164): its outcome model is unconditional success. -/
def stepE (exec : List Nat → List Nat) (w : World) (op : STOp) : Except (Nat × String) World :=
  Except.ok (step exec w op)

/-- Running a sequence of member-function calls in order. -/
def run (exec : List Nat → List Nat) (w : World) (ops : List STOp) : World :=
  ops.foldl (step exec) w

/-- A freshly constructed world: an `OCL` object and an
`SDL_ShaderTexture(renderer, ocl, width, height)` built on it. -/
def initWorld (ocl : OCLState) (width height : Nat) : World :=
  { ocl := ocl, tex := constructTex width height }

/-- A color channel of one pixel. -/
inductive Channel where
  | chB
  | chG
  | chR
  | chA
deriving DecidableEq

/-- The fixed byte order of one pixel in the `pixels` vector, per the
member declaration (SDICL.h line 95): 1 byte each for B, G, R, A in that
order. -/
def channelOffset : Channel → Nat
  | Channel.chB => 0
  | Channel.chG => 1
  | Channel.chR => 2
  | Channel.chA => 3

/-- Byte index of a channel of pixel `p` in the `pixels` vector. -/
def pixelByteIndex (p : Nat) (c : Channel) : Nat :=
  4 * p + channelOffset c

theorem readBytes_length (buf : List Nat) (n : Nat) : (readBytes buf n).length = n := by
  simp [readBytes]

theorem run_cons (exec : List Nat → List Nat) (w : World) (op : STOp) (ops : List STOp) :
    run exec w (op :: ops) = run exec (step exec w op) ops := rfl

theorem run_append (exec : List Nat → List Nat) (w : World) (ops1 ops2 : List STOp) :
    run exec w (ops1 ++ ops2) = run exec (run exec w ops1) ops2 := by
  simp [run, List.foldl_append]

/-- No member function changes the texture geometry, the pixel vector's
length, or the device buffer's allocated size. -/
theorem step_geometry (exec : List Nat → List Nat) (w : World) (op : STOp) :
    (step exec w op).tex.rectW = w.tex.rectW ∧
    (step exec w op).tex.rectH = w.tex.rectH ∧
    (step exec w op).tex.bufferSize = w.tex.bufferSize ∧
    (step exec w op).tex.pixels.length = w.tex.pixels.length := by
  cases op <;>
    simp [step, blankTex, shadeTex, updateTex, setBlendModeTex, setShaderTex, readBytes_length]

theorem run_geometry (exec : List Nat → List Nat) (w : World) (ops : List STOp) :
    (run exec w ops).tex.rectW = w.tex.rectW ∧
    (run exec w ops).tex.rectH = w.tex.rectH ∧
    (run exec w ops).tex.bufferSize = w.tex.bufferSize ∧
    (run exec w ops).tex.pixels.length = w.tex.pixels.length := by
  induction ops generalizing w with
  | nil => exact ⟨rfl, rfl, rfl, rfl⟩
  | cons op rest ih =>
    rw [run_cons]
    obtain ⟨a1, a2, a3, a4⟩ := step_geometry exec w op
    obtain ⟨b1, b2, b3, b4⟩ := ih (step exec w op)
    exact ⟨b1.trans a1, b2.trans a2, b3.trans a3, b4.trans a4⟩

/-- No member function writes the `OCL` object's `device` field. -/
theorem step_device (exec : List Nat → List Nat) (w : World) (op : STOp) :
    (step exec w op).ocl.device = w.ocl.device := by
  cases op <;> simp [step]

theorem run_device (exec : List Nat → List Nat) (w : World) (ops : List STOp) :
    (run exec w ops).ocl.device = w.ocl.device := by
  induction ops generalizing w with
  | nil => rfl
  | cons op rest ih => rw [run_cons, ih, step_device]

/-- No member function clears an installed kernel handle. -/
theorem step_kernel_isSome (exec : List Nat → List Nat) (w : World) (op : STOp)
    (h : w.tex.shaderKernel.isSome = true) :
    (step exec w op).tex.shaderKernel.isSome = true := by
  cases op <;>
    simp [step, blankTex, shadeTex, updateTex, setBlendModeTex, setShaderTex] <;> exact h

theorem run_kernel_isSome (exec : List Nat → List Nat) (w : World) (ops : List STOp)
    (h : w.tex.shaderKernel.isSome = true) :
    (run exec w ops).tex.shaderKernel.isSome = true := by
  induction ops generalizing w with
  | nil => exact h
  | cons op rest ih => rw [run_cons]; exact ih _ (step_kernel_isSome exec w op h)

/-- Once some `setShader` call occurs in the call sequence, the final
kernel handle is installed. -/
theorem run_kernel_of_setShader (exec : List Nat → List Nat) (w : World) (ops : List STOp)
    (h : ∃ name, STOp.setShader name ∈ ops) :
    (run exec w ops).tex.shaderKernel.isSome = true := by
  induction ops generalizing w with
  | nil => obtain ⟨n, hn⟩ := h; cases hn
  | cons op rest ih =>
    obtain ⟨n, hn⟩ := h
    rw [run_cons]
    rcases List.mem_cons.mp hn with heq | hmem
    · subst heq
      exact run_kernel_isSome exec _ rest (by simp [step, setShaderTex])
    · exact ih _ ⟨n, hmem⟩

theorem initWorld_pixels (ocl : OCLState) (width height : Nat) :
    (initWorld ocl width height).tex.pixels = List.replicate (width * height * 4) 0 := rfl

theorem initWorld_geometry (ocl : OCLState) (width height : Nat) :
    (initWorld ocl width height).tex.rectW = width ∧
    (initWorld ocl width height).tex.rectH = height ∧
    (initWorld ocl width height).tex.bufferSize = width * height * 4 ∧
    (initWorld ocl width height).tex.pixels.length = width * height * 4 := by
  refine ⟨rfl, rfl, rfl, ?_⟩
  simp [initWorld_pixels]

theorem applyArgUpdates_cons (k : KernelState) (u : Nat × KernelArg)
    (us : List (Nat × KernelArg)) :
    applyArgUpdates k (u :: us) = applyArgUpdates (setArg k u.1 u.2) us := rfl

/-- Caller-side `setArg` calls that only touch indices 3 and above leave
every lower argument slot unchanged. -/
theorem applyArgUpdates_low (k : KernelState) (updates : List (Nat × KernelArg)) (i : Nat)
    (hi : i < 3) (hup : ∀ u ∈ updates, 3 ≤ u.1) :
    (applyArgUpdates k updates).args i = k.args i := by
  induction updates generalizing k with
  | nil => rfl
  | cons u us ih =>
    have h3 : 3 ≤ u.1 := hup u (List.mem_cons_self u us)
    rw [applyArgUpdates_cons, ih (setArg k u.1 u.2)
      (fun v hv => hup v (List.mem_cons_of_mem u hv))]
    simp only [setArg]
    rw [if_neg (by omega)]


/-- Claim C1, counterexample: with one platform holding one device whose
score is 0, the highest score among enumerated devices is 0 and is
attained first (and only) by that device, yet `getSemiIdealDevice`
returns the default-constructed handle (`none`) rather than that device,
because the strict comparison `thisClock > maxClock` never fires against
the initial `maxClock = 0`. -/
theorem getSemiIdealDevice_zero_counterexample :
    getSemiIdealDevice [[ClDevice.mk 7 0 0]] = none ∧
    (none : Option ClDevice) ≠ some (ClDevice.mk 7 0 0) := by
  exact ⟨rfl, by decide⟩

/-- Claim C1 (amended): provided at least one enumerated device has a
nonzero score (score = maximum compute-unit count times maximum clock
frequency, as the 32-bit unsigned product the code computes),
`getSemiIdealDevice` returns the first device, in platform-then-device
enumeration order, whose score attains the maximum score over all
enumerated devices; in particular ties on the highest score are resolved
in favor of the first device encountered.  (When every score is 0 the
default-constructed handle is returned instead.) -/
theorem getSemiIdealDevice_first_max (platforms : List (List ClDevice))
    (h : 0 < maxScore platforms.flatten) :
    getSemiIdealDevice platforms
      = platforms.flatten.find? (isMaxScore (maxScore platforms.flatten)) := by
  unfold getSemiIdealDevice
  rw [foldl_scan_flatten, foldl_scanDevice]
  simp [h]

/-- Concrete instance of the amended C1 theorem: a three-device
enumeration across two platforms in which the maximum score 6 is attained
by the second and third devices; the selection is the find?-first
device attaining the maximum. -/
theorem getSemiIdealDevice_first_max_witness :
    getSemiIdealDevice [[ClDevice.mk 1 1 2], [ClDevice.mk 2 2 3, ClDevice.mk 3 3 2]]
      = ([[ClDevice.mk 1 1 2], [ClDevice.mk 2 2 3, ClDevice.mk 3 3 2]] :
          List (List ClDevice)).flatten.find?
          (isMaxScore (maxScore ([[ClDevice.mk 1 1 2], [ClDevice.mk 2 2 3, ClDevice.mk 3 3 2]] :
            List (List ClDevice)).flatten)) :=
  getSemiIdealDevice_first_max [[ClDevice.mk 1 1 2], [ClDevice.mk 2 2 3, ClDevice.mk 3 3 2]]
    (by decide)

/-- Claim C10: whenever every enumerated device has score 0 — including
when no platforms or no devices are enumerated at all — the strict
comparison against the initial `maxClock = 0` never fires, so
`getSemiIdealDevice` returns the default-constructed device handle
(`none`), not any enumerated device. -/
theorem getSemiIdealDevice_all_zero (platforms : List (List ClDevice))
    (h : ∀ d ∈ platforms.flatten, score d = 0) :
    getSemiIdealDevice platforms = none := by
  unfold getSemiIdealDevice
  rw [foldl_scan_flatten, foldl_scanDevice]
  simp [maxScore_eq_zero h]

/-- Concrete instance of the C10 theorem: one platform with two devices,
each of score 0 (one has 0 compute units, the other 0 clock). -/
theorem getSemiIdealDevice_all_zero_witness :
    getSemiIdealDevice [[ClDevice.mk 1 0 5, ClDevice.mk 2 9 0]] = none :=
  getSemiIdealDevice_all_zero [[ClDevice.mk 1 0 5, ClDevice.mk 2 9 0]] (by decide)

/-- Claim C2, counterexample: in the shade cycle of a freshly constructed
2-by-2 texture, the kernel dispatch is one of the four device operations
shade performs, and it does not block until completion: OpenCL kernel
enqueue is asynchronous (the `finish()` on the next line provides the
synchronization), so not every device operation of the cycle blocks
until completion before the next line proceeds. -/
theorem shade_dispatch_not_blocking :
    DevOp.enqueueNDRangeKernel (2 * 2) ∈ shadeTrace (constructTex 2 2) ∧
    blocksUntilCompletion (DevOp.enqueueNDRangeKernel (2 * 2)) = false ∧
    (shadeTrace (constructTex 2 2)).all blocksUntilCompletion = false := by
  refine ⟨?_, rfl, ?_⟩ <;> decide

/-- Claim C2 (amended): `shade` performs exactly four device operations
in this order — a blocking (`CL_TRUE`) upload of the pixel array's
`width*height*4` bytes into the device buffer, an asynchronous
(non-blocking) dispatch of the shader kernel with one work item per pixel
(`width*height` total), a blocking `finish()` barrier that waits for all
enqueued work including the dispatch, and a blocking (`CL_TRUE`) download
from the device buffer back into the pixel array — so the cycle as a
whole is fully synchronous, but the dispatch itself does not block; the
barrier does. -/
theorem shade_four_device_ops (exec : List Nat → List Nat) (ocl : OCLState)
    (width height : Nat) (ops : List STOp) :
    (step exec (run exec (initWorld ocl width height) ops) STOp.shade).ocl.queueLog
      = (run exec (initWorld ocl width height) ops).ocl.queueLog ++
        [ DevOp.enqueueWriteBuffer true 0 (width * height * 4)
        , DevOp.enqueueNDRangeKernel (width * height)
        , DevOp.finish
        , DevOp.enqueueReadBuffer true 0 (width * height * 4) ] ∧
    blocksUntilCompletion (DevOp.enqueueWriteBuffer true 0 (width * height * 4)) = true ∧
    blocksUntilCompletion (DevOp.enqueueNDRangeKernel (width * height)) = false ∧
    blocksUntilCompletion DevOp.finish = true ∧
    blocksUntilCompletion (DevOp.enqueueReadBuffer true 0 (width * height * 4)) = true := by
  obtain ⟨hW, hH, _, hLen⟩ := run_geometry exec (initWorld ocl width height) ops
  obtain ⟨iW, iH, _, iLen⟩ := initWorld_geometry ocl width height
  refine ⟨?_, rfl, rfl, rfl, rfl⟩
  simp [step, shadeTrace, hW.trans iW, hH.trans iH, hLen.trans iLen]

/-- Claim C3: after `setShader` completes, kernel argument 0 is bound to
the pixel buffer, argument 1 to the texture width and argument 2 to the
texture height; and any sequence of caller-side `setArg` calls that only
uses indices 3 and above leaves these three bindings untouched. -/
theorem setShader_first_three_args (st : ShaderState) (name : String)
    (updates : List (Nat × KernelArg)) (hup : ∀ u ∈ updates, 3 ≤ u.1) :
    (setShaderTex st name).shaderKernel = some (setShaderKernel st name) ∧
    (setShaderKernel st name).args 0 = some KernelArg.bufferArg ∧
    (setShaderKernel st name).args 1 = some (KernelArg.intArg st.rectW) ∧
    (setShaderKernel st name).args 2 = some (KernelArg.intArg st.rectH) ∧
    (applyArgUpdates (setShaderKernel st name) updates).args 0
      = (setShaderKernel st name).args 0 ∧
    (applyArgUpdates (setShaderKernel st name) updates).args 1
      = (setShaderKernel st name).args 1 ∧
    (applyArgUpdates (setShaderKernel st name) updates).args 2
      = (setShaderKernel st name).args 2 := by
  refine ⟨rfl, rfl, rfl, rfl, ?_, ?_, ?_⟩ <;>
    exact applyArgUpdates_low _ updates _ (by omega) hup

/-- Concrete instance of the C3 theorem: a 1-by-1 texture, shader "s",
one caller-side argument bound at index 3. -/
theorem setShader_first_three_args_witness :
    (setShaderTex (constructTex 1 1) "s").shaderKernel
      = some (setShaderKernel (constructTex 1 1) "s") ∧
    (setShaderKernel (constructTex 1 1) "s").args 0 = some KernelArg.bufferArg ∧
    (setShaderKernel (constructTex 1 1) "s").args 1
      = some (KernelArg.intArg (constructTex 1 1).rectW) ∧
    (setShaderKernel (constructTex 1 1) "s").args 2
      = some (KernelArg.intArg (constructTex 1 1).rectH) ∧
    (applyArgUpdates (setShaderKernel (constructTex 1 1) "s")
        [(3, KernelArg.intArg 255)]).args 0
      = (setShaderKernel (constructTex 1 1) "s").args 0 ∧
    (applyArgUpdates (setShaderKernel (constructTex 1 1) "s")
        [(3, KernelArg.intArg 255)]).args 1
      = (setShaderKernel (constructTex 1 1) "s").args 1 ∧
    (applyArgUpdates (setShaderKernel (constructTex 1 1) "s")
        [(3, KernelArg.intArg 255)]).args 2
      = (setShaderKernel (constructTex 1 1) "s").args 2 :=
  setShader_first_three_args (constructTex 1 1) "s" [(3, KernelArg.intArg 255)]
    (by intro u hu; rcases List.mem_singleton.mp hu with h; subst h; omega)

/-- Claim C4: if building the kernel program fails during `OCL`
construction, the process prints `" Error building: "` followed by the
build log and terminates with exit status 1; if the build succeeds,
construction completes normally; and this is the only failure path in the
library — every other member function returns unconditionally, detecting,
recovering from and propagating nothing. -/
theorem build_failure_single_error_path (platforms : List (List ClDevice))
    (kernelSources : List String) (buildLog : String) :
    mkOCL platforms kernelSources false buildLog
      = CtorOutcome.exited 1 (" Error building: " ++ buildLog ++ "\n") ∧
    mkOCL platforms kernelSources true buildLog
      = CtorOutcome.ok (mkOCLState platforms kernelSources) ∧
    ∀ (exec : List Nat → List Nat) (w : World) (op : STOp),
      stepE exec w op = Except.ok (step exec w op) :=
  ⟨rfl, rfl, fun _ _ _ => rfl⟩

/-- Claim C5: the device pixel buffer is created with byte size equal to
the byte size of the CPU-side pixel array (`width*height*4`), and after
every sequence of member-function calls (`blank`, `shade`, `update`,
`setShader`, `setBlendMode`) both are still exactly `width*height*4`
bytes: the pixel array is never resized and the buffer is never
reallocated after construction. -/
theorem buffer_size_equals_pixels (exec : List Nat → List Nat) (ocl : OCLState)
    (width height : Nat) (ops : List STOp) :
    (run exec (initWorld ocl width height) ops).tex.bufferSize
      = (run exec (initWorld ocl width height) ops).tex.pixels.length ∧
    (run exec (initWorld ocl width height) ops).tex.bufferSize = width * height * 4 ∧
    (run exec (initWorld ocl width height) ops).tex.pixels.length = width * height * 4 := by
  obtain ⟨_, _, h3, h4⟩ := run_geometry exec (initWorld ocl width height) ops
  obtain ⟨_, _, i3, i4⟩ := initWorld_geometry ocl width height
  exact ⟨(h3.trans i3).trans (h4.trans i4).symm, h3.trans i3, h4.trans i4⟩

/-- Claim C6: the kernel handle of a freshly constructed
`SDL_ShaderTexture` is null, and after any call sequence containing at
least one `setShader` call the kernel handle is non-null (no operation
ever clears it), so the kernel dereference inside `shade` is valid under
the precondition that a shader has been set, and the precondition is
required. -/
theorem kernel_set_before_shade (exec : List Nat → List Nat) (ocl : OCLState)
    (width height : Nat) (ops : List STOp)
    (h : ∃ name, STOp.setShader name ∈ ops) :
    (constructTex width height).shaderKernel = none ∧
    (run exec (initWorld ocl width height) ops).tex.shaderKernel.isSome = true :=
  ⟨rfl, run_kernel_of_setShader exec _ ops h⟩

/-- Concrete instance of the C6 theorem: a 1-by-1 texture on which
`setShader "s"` and then `blank` are called. -/
theorem kernel_set_before_shade_witness :
    (constructTex 1 1).shaderKernel = none ∧
    (run id (initWorld (mkOCLState [] []) 1 1)
        [STOp.setShader "s", STOp.blank]).tex.shaderKernel.isSome = true :=
  kernel_set_before_shade id (mkOCLState [] []) 1 1 [STOp.setShader "s", STOp.blank]
    ⟨"s", List.mem_cons_self _ _⟩

/-- Claim C7: for every width and height passed to the constructor, the
constructed pixel array has exactly `width*height*4` bytes; each pixel
`p` occupies the four bytes at indices `4p .. 4p+3` in the fixed order
B, G, R, A (one byte per channel), every such byte index is in range, and
distinct pixel/channel pairs occupy distinct bytes. -/
theorem pixels_four_bytes_bgra (width height p p2 : Nat) (c c2 : Channel)
    (hp : p < width * height) (hp2 : p2 < width * height) :
    (constructTex width height).pixels.length = width * height * 4 ∧
    pixelByteIndex p Channel.chB = 4 * p ∧
    pixelByteIndex p Channel.chG = 4 * p + 1 ∧
    pixelByteIndex p Channel.chR = 4 * p + 2 ∧
    pixelByteIndex p Channel.chA = 4 * p + 3 ∧
    pixelByteIndex p c < width * height * 4 ∧
    (pixelByteIndex p c = pixelByteIndex p2 c2 → p = p2 ∧ c = c2) := by
  have hco : ∀ ch : Channel, channelOffset ch < 4 := by
    intro ch; cases ch <;> simp [channelOffset]
  refine ⟨by simp [constructTex, updateTex], rfl, rfl, rfl, rfl, ?_, ?_⟩
  · have := hco c
    simp only [pixelByteIndex]
    omega
  · intro heq
    have h1 := hco c
    have h2 := hco c2
    simp only [pixelByteIndex] at heq
    have hpp : p = p2 := by omega
    subst hpp
    refine ⟨rfl, ?_⟩
    have hcc : channelOffset c = channelOffset c2 := by omega
    cases c <;> cases c2 <;> simp_all [channelOffset]

/-- Concrete instance of the C7 theorem: a 1-by-1 texture, pixel 0,
channel B against itself. -/
theorem pixels_four_bytes_bgra_witness :
    (constructTex 1 1).pixels.length = 1 * 1 * 4 ∧
    pixelByteIndex 0 Channel.chB = 4 * 0 ∧
    pixelByteIndex 0 Channel.chG = 4 * 0 + 1 ∧
    pixelByteIndex 0 Channel.chR = 4 * 0 + 2 ∧
    pixelByteIndex 0 Channel.chA = 4 * 0 + 3 ∧
    pixelByteIndex 0 Channel.chB < 1 * 1 * 4 ∧
    (pixelByteIndex 0 Channel.chB = pixelByteIndex 0 Channel.chB
      → 0 = 0 ∧ Channel.chB = Channel.chB) :=
  pixels_four_bytes_bgra 1 1 0 0 Channel.chB Channel.chB (by decide) (by decide)

/-- Claim C8: the compute device handle is chosen exactly once, in the
`OCL` constructor, as the result of `getSemiIdealDevice`, and no member
function of the library (`OCL`'s or `SDL_ShaderTexture`'s, over any call
sequence) modifies the `device` field afterwards. -/
theorem device_chosen_once (platforms : List (List ClDevice))
    (kernelSources : List String) (exec : List Nat → List Nat)
    (w : World) (ops : List STOp) :
    (mkOCLState platforms kernelSources).device = getSemiIdealDevice platforms ∧
    (run exec w ops).ocl.device = w.ocl.device :=
  ⟨rfl, run_device exec w ops⟩

/-- Claim C9: immediately after construction every byte of the pixel
array is 0 (all black with alpha 0), and `blank()` restores exactly this
state from any reachable pixel-array contents: after any call sequence
followed by `blank`, every byte of the pixel array is 0 and its size is
still `width*height*4`. -/
theorem construct_and_blank_all_zero (exec : List Nat → List Nat) (ocl : OCLState)
    (width height : Nat) (ops : List STOp) :
    (constructTex width height).pixels = List.replicate (width * height * 4) 0 ∧
    (run exec (initWorld ocl width height) (ops ++ [STOp.blank])).tex.pixels
      = List.replicate (width * height * 4) 0 := by
  refine ⟨rfl, ?_⟩
  rw [run_append]
  have hlen := (run_geometry exec (initWorld ocl width height) ops).2.2.2.trans
    (initWorld_geometry ocl width height).2.2.2
  have hstep : run exec (run exec (initWorld ocl width height) ops) [STOp.blank]
      = step exec (run exec (initWorld ocl width height) ops) STOp.blank := rfl
  rw [hstep]
  simp only [step, blankTex]
  rw [hlen]
